import Mathlib

/-
Verification of the L9945 bridge-driver core (`src/L9945.h`).

The development shallowly embeds the core of the driver:
  * the parity helper `l9945::calculateParity` and the outgoing-word
    preparation `L9945::prepareDataToSend`;
  * the two-phase pipelined transfer `L9945::spiTransfer` together with
    `L9945::read`, `L9945::write`, `L9945::readIntoCache`,
    `L9945::readAllIntoCache`, `L9945::writeFromCache`,
    `L9945::writeAllFromCache` and `L9945::reset`;
  * the diagnostics engine (`DiagnosticsResult::gatherChannels`,
    the `cOffPulse` branch of `DiagnosticsResult::perform` and
    `DiagnosticsResult::getChannelDiagnostics`).

Machine integers (`uint32_t`) are modelled as `Nat` with explicit
`% 2 ^ 32` at the points where the C++ code converts into `uint32_t`.
The hardware collaborator (the template parameter `tInterface`) is
modelled by an environment `SpiEnv` supplying, for one transfer, the
outcome of the two physical `spiTransmitReceive` exchanges and the
32-bit word assembled from the four bytes received in the second
exchange (the driver itself assembles `mDataIn[0..3]` MSB first; the
model keeps the assembled word).  Every hardware-facing call of the
driver (chip-select toggling, physical exchange, blocking delay,
global-enable, reset line, fatal-error sink) is recorded in an event
trace so that claims about which collaborator operations happen, and
in which order, become statements about the trace.  The pseudo-event
`Event.latchCleared` marks the point inside `reset()` where the
assignment `mSpiFailed = false;` executes; it corresponds to no
collaborator call.
-/

namespace L9945

/-- Result of one physical SPI exchange, `L9945::SpiResult` in the source. -/
inductive SpiResult where
  | cOk
  | cError
  | cBusy
  | cTimeout
deriving DecidableEq

/-- Fatal error kinds, `L9945::Exception` in the source. -/
inductive Except9945 where
  | cCommunication
  | cParity
deriving DecidableEq

/-- The two bridges, `L9945::Bridge` in the source (`c1 = 0`, `c2 = 4`). -/
inductive Bridge where
  | c1
  | c2
deriving DecidableEq

/-- Numeric value of the `Bridge` enum, used by `bridge2command1458`. -/
def Bridge.toOffset : Bridge → Nat
  | .c1 => 0
  | .c2 => 4

/-- Diagnostics test kinds, `L9945::DiagnosticsTest` in the source. -/
inductive DiagnosticsTest where
  | cNone
  | cAuto
  | cOffPulse
  | cOnPulse
  | cBist
deriving DecidableEq

/-- Calls the driver makes into the hardware collaborator, plus the
pseudo-event `latchCleared` marking `mSpiFailed = false;` inside `reset()`. -/
inductive Event where
  | enableSpi (enable : Bool)
  | exchange
  | delayMs (ms : Nat)
  | enableAll (enable : Bool)
  | fatal (e : Except9945)
  | enableReset (enable : Bool)
  | latchCleared
deriving DecidableEq

/-- Environment for one call of `spiTransfer`: outcome of the first and the
second physical exchange, and the 32-bit word received in the second one. -/
structure SpiEnv where
  result1 : SpiResult
  result2 : SpiResult
  data2 : Nat
deriving DecidableEq

/-! ## Constants of the source -/

/-- `cRegisterCount = 14`. -/
def cRegisterCount : Nat := 14

/-- `cChannelCount = cMaskChannel + 1 = 8`. -/
def cChannelCount : Nat := 8

/-- `cResetDelay = 10` (ms). -/
def cResetDelay : Nat := 10

/-- `cInvalidResponse = 0`. -/
def cInvalidResponse : Nat := 0

/-- `cInvalidParity = 1`. -/
def cInvalidParity : Nat := 1

/-- `cNoDelay = 0`. -/
def cNoDelay : Nat := 0

/-- `cMaskRead = 0x01 << 27`. -/
def cMaskRead : Nat := 0x01 <<< 27

/-- `cMaskChannelDiagnostics = 0x010101`. -/
def cMaskChannelDiagnostics : Nat := 0x010101

/-- `cMask0enableDiagnostics = 0x01 << 25`. -/
def cMask0enableDiagnostics : Nat := 0x01 <<< 25

/-- `cMask0spiInputSelect81 = 0xff << 17`. -/
def cMask0spiInputSelect81 : Nat := 0xff <<< 17

/-- `cMask0protectionDisable81 = 0xff << 9`. -/
def cMask0protectionDisable81 : Nat := 0xff <<< 9

/-- `cMask0outputVcompared81 = 0xff << 1`. -/
def cMask0outputVcompared81 : Nat := 0xff <<< 1

/-- `cMask4bridge1config = 0x01 << 26`. -/
def cMask4bridge1config : Nat := 0x01 <<< 26

/-- `cMask9diagOffPulse81 = 0xff << 9`. -/
def cMask9diagOffPulse81 : Nat := 0xff <<< 9

/-- `cMask9diagOnPulse81 = 0xff << 1`. -/
def cMask9diagOnPulse81 : Nat := 0xff <<< 1

/-- `cMask9diagnosticBit2ch81 = 0xff << 17`. -/
def cMask9diagnosticBit2ch81 : Nat := 0xff <<< 17

/-- `cMask9diagnosticBit1ch81 = 0xff << 9`. -/
def cMask9diagnosticBit1ch81 : Nat := 0xff <<< 9

/-- `cMask9diagnosticBit0ch81 = 0xff << 1`. -/
def cMask9diagnosticBit0ch81 : Nat := 0xff <<< 1

/-- `cMask81tBlankOc81 = 0x07 << 9`. -/
def cMask81tBlankOc81 : Nat := 0x07 <<< 9

/-- `cMask81lsHsConfig81 = 0x01 << 2`. -/
def cMask81lsHsConfig81 : Nat := 0x01 <<< 2

/-- Loop body of `l9945::getRightmost1position`: counts trailing zero bits,
`fuel` holds the remaining iterations of the bound `result < 32`. -/
def rightmost1Aux : Nat → Nat → Nat → Nat
  | _, result, 0 => result
  | work, result, fuel + 1 =>
    if work % 2 = 0 then rightmost1Aux (work / 2) (result + 1) fuel else result

/-- `l9945::getRightmost1position`: index of the least significant set bit
(32 when none within the 32-bit word). -/
def getRightmost1position (aIn : Nat) : Nat :=
  rightmost1Aux aIn 0 32

/-- `ChannelSide::cHs = 1 << getRightmost1position cMask81lsHsConfig81`. -/
def cChannelSide_cHs : Nat := 1 <<< getRightmost1position cMask81lsHsConfig81

/-- `ChannelSide::cLs = 0`. -/
def cChannelSide_cLs : Nat := 0

/-- `ChannelOcBlankTime::c142us = (1 << getRightmost1position cMask81tBlankOc81) * 7`. -/
def cChannelOcBlankTime_c142us : Nat := (1 <<< getRightmost1position cMask81tBlankOc81) * 7

/-- `ChannelOcBlankTime::c97us = (1 << getRightmost1position cMask81tBlankOc81) * 6`. -/
def cChannelOcBlankTime_c97us : Nat := (1 <<< getRightmost1position cMask81tBlankOc81) * 6

/-- `cInitialRegisterValues` from the source, one 32-bit word per register. -/
def cInitialRegisterValues : List Nat :=
  [ 0b00001000000000000000000000000001,
    0x1EC00001,
    0x2EC00001,
    0x3BC00000,
    0x48C00001,
    0x5EC00000,
    0x6EC00000,
    0x7AC00000,
    0x88C00001,
    0b10011010101010111111111111111110,
    0b10101010101010101010101010000000,
    0xBAAAAAAA,
    0xCAAAAAAB,
    0xDAAAAAAA ]

/-- `cFixedPatternValues` from the source. -/
def cFixedPatternValues : List Nat :=
  [ 0x00000000,
    0x10000000,
    0x20000000,
    0x30000000,
    0x40000000,
    0x50000000,
    0x60000000,
    0x70000000,
    0x80000000,
    0b10010010101010100000000000000000,
    0b10100010101010101010101010000000,
    0xBAAAAAAA,
    0xCAAAAAAB,
    0xDAAAAAAA ]

/-- `cFixedPatternMasks` from the source. -/
def cFixedPatternMasks : List Nat :=
  [ 0xF0000000,
    0xF0000000,
    0xF0000000,
    0xF0000000,
    0xF0000000,
    0xF0000000,
    0xF1000000,
    0xF1000000,
    0xF0000000,
    0b11110111111111100000000000000000,
    0b11110111111111111111111110000000,
    0xFFFFFFFF,
    0xFFFFFFFF,
    0xFFFFFFFF ]

/-- `DiagnosticsResult::cWaitForTest = {0, 0, 1, 1, 3}` (ms), indexed by
`DiagnosticsTest`. -/
def cWaitForTest : List Nat := [0, 0, 1, 1, 3]

/-! ## Parity -/

/-- The five xor-shift folding steps of `l9945::calculateParity`
(`result ^= result >> 1; ... result ^= result >> 16;`), on the 32-bit input. -/
def parityFold (aIn : Nat) : Nat :=
  let result0 := aIn % 2 ^ 32
  let result1 := result0 ^^^ (result0 >>> 1)
  let result2 := result1 ^^^ (result1 >>> 2)
  let result3 := result2 ^^^ (result2 >>> 4)
  let result4 := result3 ^^^ (result3 >>> 8)
  result4 ^^^ (result4 >>> 16)

/-- `l9945::calculateParity`: returns `~result & 1` of the folded word, so
`1` exactly when the 32-bit XOR-fold of the input is `0` (even population). -/
def calculateParity (aIn : Nat) : Nat :=
  (parityFold aIn ^^^ 0xFFFFFFFF) &&& 1

/-- The XOR-fold of the lowest `n` bits of a word. -/
def xorFoldAux (v : Nat) : Nat → Bool
  | 0 => false
  | n + 1 => (xorFoldAux v n).xor (v.testBit n)

/-- The XOR-fold of all 32 bits of a word: `true` iff the population of set
bits among bits 0..31 is odd. -/
def xorFold32 (v : Nat) : Bool :=
  xorFoldAux v 32

theorem and_one_eq (x : Nat) : x &&& 1 = if x.testBit 0 then 1 else 0 := by
  rw [Nat.and_one_is_mod, Nat.testBit_zero]
  rcases Nat.mod_two_eq_zero_or_one x with h | h <;> simp [h]

theorem parityFold_testBit (v : Nat) : (parityFold v).testBit 0 = xorFold32 v := by
  show (parityFold v).testBit 0 = xorFoldAux v 32
  unfold parityFold
  simp only [xorFoldAux, Nat.testBit_xor, Nat.testBit_shiftRight,
    Nat.testBit_mod_two_pow, Nat.reduceAdd]
  simp [Bool.xor_assoc, Bool.xor_comm, Bool.xor_left_comm]

theorem calculateParity_eq (v : Nat) :
    calculateParity v = if xorFold32 v then 0 else 1 := by
  have hf : (0xFFFFFFFF : Nat).testBit 0 = true := by decide
  unfold calculateParity
  rw [and_one_eq, Nat.testBit_xor, parityFold_testBit, hf]
  cases xorFold32 v <;> rfl

theorem xorFoldAux_xor (x y : Nat) :
    ∀ n, xorFoldAux (x ^^^ y) n = (xorFoldAux x n).xor (xorFoldAux y n)
  | 0 => rfl
  | n + 1 => by
    simp [xorFoldAux, xorFoldAux_xor x y n, Nat.testBit_xor,
      Bool.xor_assoc, Bool.xor_comm, Bool.xor_left_comm]

theorem xorFold32_xor (x y : Nat) :
    xorFold32 (x ^^^ y) = ((xorFold32 x).xor (xorFold32 y)) :=
  xorFoldAux_xor x y 32

theorem xorFoldAux_mod (v : Nat) :
    ∀ n, n ≤ 32 → xorFoldAux (v % 2 ^ 32) n = xorFoldAux v n
  | 0, _ => rfl
  | n + 1, h => by
    have hn : n < 32 := by omega
    simp only [xorFoldAux]
    rw [xorFoldAux_mod v n (by omega), Nat.testBit_mod_two_pow]
    simp [hn]

theorem xorFold32_mod (v : Nat) : xorFold32 (v % 2 ^ 32) = xorFold32 v :=
  xorFoldAux_mod v 32 le_rfl

/-- `L9945::prepareDataToSend` stores `aValue ^ calculateParity(aValue)` into
the four bytes of `mDataOut`, MSB first; the model keeps the assembled
32-bit word. -/
def prepareWord (aValue : Nat) : Nat :=
  (aValue % 2 ^ 32) ^^^ calculateParity aValue

theorem xorFold32_prepareWord (v : Nat) : xorFold32 (prepareWord v) = true := by
  unfold prepareWord
  rw [xorFold32_xor, xorFold32_mod, calculateParity_eq]
  cases h : xorFold32 v <;> simp [h] <;> decide

/-! ## Driver state and the transfer engine -/

/-- The mutable state of one `L9945` instance: `mReadCache`, `mWriteCache`,
`mSpiFailed`, `mWriteDelay` and the phase-1 word currently held in
`mDataOut[0..3]` (assembled; the constant phase-2 dummy `mDataOut[4..7]`
never changes and is not modelled).  The constructor leaves the caches
unspecified; `initialState` uses zeros as one concrete instance. -/
structure DriverState where
  readCache : List Nat
  writeCache : List Nat
  spiFailed : Bool
  writeDelay : Nat
  dataOut : Nat
deriving DecidableEq

/-- A concrete post-construction state (`mSpiFailed = false`,
`mWriteDelay = 0`, caches arbitrary — zero-filled here). -/
def initialState : DriverState :=
  { readCache := List.replicate 14 0
    writeCache := List.replicate 14 0
    spiFailed := false
    writeDelay := 0
    dataOut := 0 }

/-- `L9945::spiTransfer(aCommand, aDelay)`: the two-phase pipelined exchange.
The first exchange is attempted iff `!mSpiFailed && aCommand < cRegisterCount`
(short-circuit, so a latched fault skips all physical exchanges); the second
iff the first was attempted and returned `cOk`.  The received word comes from
the second exchange.  The fault block runs only when the latch was clear on
entry; either failed exchange raises `cCommunication`, an even-parity word
(`calculateParity == cInvalidParity`) raises `cParity`; both latch
`mSpiFailed`, disable outputs and store `cInvalidResponse`.  In every case the
final `mReadCache[aCommand] = result;` assignment executes. -/
def spiTransfer (s : DriverState) (env : SpiEnv) (aCommand aDelay : Nat) :
    Nat × DriverState × List Event :=
  let attempt1 : Bool := !s.spiFailed && decide (aCommand < cRegisterCount)
  let spiResult1 : SpiResult := if attempt1 then env.result1 else SpiResult.cOk
  let success : Bool := attempt1 && (spiResult1 == SpiResult.cOk)
  let spiResult2 : SpiResult := if success then env.result2 else SpiResult.cOk
  let received : Nat :=
    if success && (spiResult2 == SpiResult.cOk) then env.data2 % 2 ^ 32 else cInvalidResponse
  let exchanges : List Event :=
    [Event.enableSpi true] ++ (if attempt1 then [Event.exchange] else [])
      ++ [Event.enableSpi false, Event.delayMs aDelay, Event.enableSpi true]
      ++ (if success then [Event.exchange] else []) ++ [Event.enableSpi false]
  if s.spiFailed then
    (cInvalidResponse,
     { s with readCache := s.readCache.set aCommand cInvalidResponse },
     exchanges)
  else if spiResult1 ≠ SpiResult.cOk ∨ spiResult2 ≠ SpiResult.cOk then
    (cInvalidResponse,
     { s with spiFailed := true,
              readCache := s.readCache.set aCommand cInvalidResponse },
     exchanges ++ [Event.enableAll false, Event.fatal Except9945.cCommunication])
  else if calculateParity received = cInvalidParity then
    (cInvalidResponse,
     { s with spiFailed := true,
              readCache := s.readCache.set aCommand cInvalidResponse },
     exchanges ++ [Event.enableAll false, Event.fatal Except9945.cParity])
  else
    (received,
     { s with readCache := s.readCache.set aCommand received },
     exchanges)

/-- `L9945::read(aCommand)`: prepares the read-request marker
(`cFixedPatternValues[aCommand] | cMaskRead`, with parity) and transfers
with `cNoDelay`. -/
def read (s : DriverState) (env : SpiEnv) (aCommand : Nat) :
    Nat × DriverState × List Event :=
  let s1 := { s with dataOut := prepareWord ((cFixedPatternValues.getD aCommand 0) ||| cMaskRead) }
  spiTransfer s1 env aCommand cNoDelay

/-- The fixed-pattern adjustment performed by `L9945::write`:
`(aValue & ~(cMaskRead | cFixedPatternMasks[aCommand])) | cFixedPatternValues[aCommand]`. -/
def adjustForWrite (aCommand aValue : Nat) : Nat :=
  ((aValue % 2 ^ 32) &&& ((cMaskRead ||| cFixedPatternMasks.getD aCommand 0) ^^^ 0xFFFFFFFF))
    ||| cFixedPatternValues.getD aCommand 0

/-- `L9945::write(aCommand, aValue)`: stores the adjusted value into
`mWriteCache[aCommand]` and into the transmit buffer, consumes `mWriteDelay`
(resetting it to zero before the transfer), and reports success iff the
transfer result differs from `cInvalidResponse`. -/
def write (s : DriverState) (env : SpiEnv) (aCommand aValue : Nat) :
    Bool × DriverState × List Event :=
  let toWrite := adjustForWrite aCommand aValue
  let s1 := { s with writeCache := s.writeCache.set aCommand toWrite,
                     dataOut := prepareWord toWrite }
  let delay := s1.writeDelay
  let s2 := { s1 with writeDelay := cNoDelay }
  let t := spiTransfer s2 env aCommand delay
  (t.1 != cInvalidResponse, t.2.1, t.2.2)

/-- `L9945::readIntoCache(aCommand)`: reads, stores the result into
`mReadCache[aCommand]` (again — `spiTransfer` already did), and returns
`mSpiFailed`. -/
def readIntoCache (s : DriverState) (env : SpiEnv) (aCommand : Nat) :
    Bool × DriverState × List Event :=
  let r := read s env aCommand
  let s1 := { r.2.1 with readCache := r.2.1.readCache.set aCommand r.1 }
  (s1.spiFailed, s1, r.2.2)

/-- The loop of `L9945::readAllIntoCache`, from `start` for `count` registers.
The C++ guard is `result && command < cRegisterCount`, but `result` is
initialised `true` and never assigned, so the loop always covers every
register. -/
def readRange (s : DriverState) (envs : Nat → SpiEnv) :
    Nat → Nat → DriverState × List Event
  | _, 0 => (s, [])
  | start, count + 1 =>
    let r := read s (envs start) start
    let s1 := { r.2.1 with readCache := r.2.1.readCache.set start r.1 }
    let rest := readRange s1 envs (start + 1) count
    (rest.1, r.2.2 ++ rest.2)

/-- `L9945::readAllIntoCache()`: refreshes all 14 registers and returns
`mSpiFailed`. -/
def readAllIntoCache (s : DriverState) (envs : Nat → SpiEnv) :
    Bool × DriverState × List Event :=
  let r := readRange s envs 0 cRegisterCount
  (r.1.spiFailed, r.1, r.2)

/-- The loop of `L9945::writeAllFromCache`: writes `mWriteCache[command]`
for each register, stopping at the first failed write (`result` is cleared
and the guard `result && command < cRegisterCount` exits). -/
def writeRange (s : DriverState) (envs : Nat → SpiEnv) :
    Nat → Nat → Bool × DriverState × List Event
  | _, 0 => (true, s, [])
  | start, count + 1 =>
    let w := write s (envs start) start (s.writeCache.getD start 0)
    if w.1 then
      let rest := writeRange w.2.1 envs (start + 1) count
      (rest.1, rest.2.1, w.2.2 ++ rest.2.2)
    else
      (false, w.2.1, w.2.2)

/-- `L9945::writeAllFromCache()`. -/
def writeAllFromCache (s : DriverState) (envs : Nat → SpiEnv) :
    Bool × DriverState × List Event :=
  writeRange s envs 0 cRegisterCount

/-- `L9945::writeFromCache(aCommand)` = `write(aCommand, mWriteCache[aCommand])`. -/
def writeFromCache (s : DriverState) (env : SpiEnv) (aCommand : Nat) :
    Bool × DriverState × List Event :=
  write s env aCommand (s.writeCache.getD aCommand 0)

/-! ## reset -/

/-- The collaborator calls made by `L9945::avoidInitialCommunicationFailure`:
one throwaway exchange pair, each exchange framed by chip-select
assert/deassert; results and received data are discarded. -/
def cAvoidInitialTrace : List Event :=
  [Event.enableSpi true, Event.exchange, Event.enableSpi false,
   Event.enableSpi true, Event.exchange, Event.enableSpi false]

/-- `L9945::avoidInitialCommunicationFailure()`: adjusts and stores the
initial value of command 13 into `mWriteCache[13]` and the transmit buffer,
then performs the throwaway exchange pair. -/
def avoidInitialCommunicationFailure (s : DriverState) : DriverState × List Event :=
  let toWrite := adjustForWrite 13 (cInitialRegisterValues.getD 13 0)
  ({ s with writeCache := s.writeCache.set 13 toWrite,
            dataOut := prepareWord toWrite },
   cAvoidInitialTrace)

/-- The collaborator calls `reset()` makes before the assignment
`mSpiFailed = false;`: reset-line toggling with two 10 ms delays, then the
throwaway exchange pair. -/
def resetPrefixEvents : List Event :=
  [Event.enableReset true, Event.delayMs cResetDelay,
   Event.enableReset false, Event.delayMs cResetDelay] ++ cAvoidInitialTrace

/-- The driver state at the moment `reset()` executes `mSpiFailed = false;`:
`mWriteCache` holds the power-on image (`std::copy` of
`cInitialRegisterValues`), `avoidInitialCommunicationFailure` has run, the
fault latch is clear. -/
def resetCleared (s : DriverState) : DriverState :=
  { (avoidInitialCommunicationFailure { s with writeCache := cInitialRegisterValues }).1
    with spiFailed := false }

/-- `L9945::reset()`: reset-line pulse, power-on image into `mWriteCache`,
throwaway exchange pair, `mSpiFailed = false` (marked by
`Event.latchCleared`), full write-back, then `enableAll(!mSpiFailed)`. -/
def reset (s : DriverState) (envs : Nat → SpiEnv) : DriverState × List Event :=
  let w := writeAllFromCache (resetCleared s) envs
  (w.2.1,
   resetPrefixEvents ++ [Event.latchCleared] ++ w.2.2
     ++ [Event.enableAll (!w.2.1.spiFailed)])

/-! ## Diagnostics engine -/

/-- `L9945::channel2command18` : `cCommand1 + ((aChannel - 1) & cMaskChannel)`. -/
def channel2command18 (aChannel : Nat) : Nat :=
  1 + ((aChannel - 1) &&& 7)

/-- `L9945::getBridgeConfig(aBridge)` read from the read cache:
`mReadCache[cCommand4 + bridge] & cMask4bridge1config > 0`. -/
def getBridgeConfig (rc : List Nat) (aBridge : Bridge) : Bool :=
  ((rc.getD (4 + aBridge.toOffset) 0) &&& cMask4bridge1config) != 0

/-- `L9945::getOcBlankTime(aChannel)` as its raw register field
(`getEnum(channel2command18(aChannel), cMask81tBlankOc81)`); the C++
enum comparison `<` compares these raw values. -/
def getOcBlankTime (rc : List Nat) (aChannel : Nat) : Nat :=
  (rc.getD (channel2command18 aChannel) 0) &&& cMask81tBlankOc81

/-- `L9945::getSide(aChannel)` as its raw register field
(`cLs = 0`, `cHs = 4`). -/
def getSide (rc : List Nat) (aChannel : Nat) : Nat :=
  (rc.getD (channel2command18 aChannel) 0) &&& cMask81lsHsConfig81

/-- `L9945::getSpiOnOut(aChannel)`: the channel's observed driven state,
`(bit && side == cHs) || (!bit && side == cLs)` where `bit` is the
channel's `cMask0outputVcompared81` bit of command 0. -/
def getSpiOnOut (rc : List Nat) (aChannel : Nat) : Bool :=
  let side := getSide rc aChannel
  let bit : Bool :=
    ((((rc.getD 0 0) &&& cMask0outputVcompared81)
        >>> (getRightmost1position cMask0outputVcompared81 + aChannel - 1)) &&& 1) != 0
  (bit && (side == cChannelSide_cHs)) || (!bit && (side == cChannelSide_cLs))

/-- `L9945::DiagnosticsResult::gatherChannels(aTimeLimit, aFetNow)`,
transcribed statement by statement.  Note the loop body is
`willTest &= (ok ? 1u : 0u) << i;` exactly as in the source. -/
def gatherChannels (rc : List Nat) (aTimeLimit : Nat) (aFetNow : Bool) : Nat :=
  let willTest := if getBridgeConfig rc Bridge.c1 then 0 else 0x0f
  let willTest := willTest ||| (if getBridgeConfig rc Bridge.c2 then 0 else 0xf0)
  let willTest :=
    willTest &&& (if ((rc.getD 0 0) &&& cMask0enableDiagnostics) != 0 then 0xff else 0)
  let willTest :=
    willTest &&& ((rc.getD 0 0) >>> getRightmost1position cMask0spiInputSelect81)
  let willTest :=
    willTest &&& (((rc.getD 0 0) >>> getRightmost1position cMask0protectionDisable81) ^^^ 0xFFFFFFFF)
  let willTest := (List.range 8).foldl
    (fun wt i =>
      let ok := decide (getOcBlankTime rc (i + 1) < aTimeLimit) && (getSpiOnOut rc (i + 1) == aFetNow)
      wt &&& ((if ok then 1 else 0) <<< i))
    willTest
  willTest &&& 0xff

/-- The immutable snapshot held by `L9945::DiagnosticsResult`:
`mTestPerformed`, `mChannelsDiagnosed` and the frozen copy of
`mReadCache`. -/
structure DiagnosticsResult where
  testPerformed : DiagnosticsTest
  channelsDiagnosed : List Bool
  readCache : List Nat
deriving DecidableEq

/-- The snapshot built at the end of `DiagnosticsResult::perform`:
`mChannelsDiagnosed[i] = (willTest & 1u << i) > 0u` and a copy of the
parent's read cache. -/
def mkSnapshot (t : DiagnosticsTest) (willTest : Nat) (rc : List Nat) :
    DiagnosticsResult :=
  { testPerformed := t
    channelsDiagnosed := (List.range 8).map (fun i => (willTest &&& (1 <<< i)) != 0)
    readCache := rc }

/-- The `cOffPulse` branch of `DiagnosticsResult::perform`: full refresh,
`gatherChannels(ChannelOcBlankTime::c142us, true)`, and — only when the
bitmap is nonzero — `setWriteDelay(cWaitForTest[cOffPulse])`, one write of
all trigger bits to command 9, and restoration of
`mWriteCache[cCommand9] = cFixedPatternValues[cCommand9]`. -/
def performOffPulse (s : DriverState) (envs : Nat → SpiEnv) (envTrigger : SpiEnv) :
    DiagnosticsResult × DriverState × List Event :=
  let a := readAllIntoCache s envs
  let s1 := a.2.1
  let willTest := gatherChannels s1.readCache cChannelOcBlankTime_c142us true
  if willTest ≠ 0 then
    let s2 := { s1 with writeDelay := cWaitForTest.getD 2 0 }
    let w := write s2 envTrigger 9
      ((cFixedPatternValues.getD 9 0) ||| (willTest <<< getRightmost1position cMask9diagOffPulse81))
    let s3 := { w.2.1 with writeCache := w.2.1.writeCache.set 9 (cFixedPatternValues.getD 9 0) }
    (mkSnapshot DiagnosticsTest.cOffPulse willTest s3.readCache, s3, a.2.2 ++ w.2.2)
  else
    (mkSnapshot DiagnosticsTest.cOffPulse willTest s1.readCache, s1, a.2.2)

/-- `L9945::DiagnosticsResult::getChannelDiagnostics(aChannel)`: `some`
value only for a channel in 1..8 whose `mChannelsDiagnosed` bit is set and
when the performed test was `cAuto`, `cOffPulse` or `cOnPulse`; otherwise
`none` ("not applicable").  A pure function of the snapshot — no device
access. -/
def DiagnosticsResult.getChannelDiagnostics (d : DiagnosticsResult) (aChannel : Nat) :
    Option Nat :=
  let all := (d.readCache.getD 9 0)
    &&& (cMask9diagnosticBit2ch81 ||| cMask9diagnosticBit1ch81 ||| cMask9diagnosticBit0ch81)
  if 0 < aChannel ∧ aChannel ≤ cChannelCount
      ∧ d.channelsDiagnosed.getD (aChannel - 1) false = true
      ∧ (d.testPerformed = DiagnosticsTest.cAuto ∨ d.testPerformed = DiagnosticsTest.cOffPulse
          ∨ d.testPerformed = DiagnosticsTest.cOnPulse) then
    some ((all >>> aChannel) &&& cMaskChannelDiagnostics)
  else
    none

/-! ## Helper lemmas about the transfer engine -/

/-- Number of blocking-delay collaborator calls in a trace; each physical
transfer performs exactly one, so this counts transfer attempts. -/
def countDelayEvents (tr : List Event) : Nat :=
  tr.countP (fun e => match e with | Event.delayMs _ => true | _ => false)

/-- Number of fatal-error-sink invocations in a trace. -/
def countFatalEvents (tr : List Event) : Nat :=
  tr.countP (fun e => match e with | Event.fatal _ => true | _ => false)

theorem countP_ite (p : Event → Bool) (c : Prop) [Decidable c] (l1 l2 : List Event) :
    List.countP p (if c then l1 else l2)
      = if c then List.countP p l1 else List.countP p l2 := by
  split <;> rfl

/-- `spiTransfer` never touches `mWriteCache`, the transmit buffer or
`mWriteDelay`. -/
theorem spiTransfer_frame (s : DriverState) (env : SpiEnv) (c d : Nat) :
    (spiTransfer s env c d).2.1.writeCache = s.writeCache
    ∧ (spiTransfer s env c d).2.1.dataOut = s.dataOut
    ∧ (spiTransfer s env c d).2.1.writeDelay = s.writeDelay := by
  simp only [spiTransfer]
  split_ifs <;> exact ⟨rfl, rfl, rfl⟩

theorem calculateParity_zero : calculateParity 0 = cInvalidParity := by decide

/-- Every `spiTransfer` call performs exactly one blocking delay, with the
caller-supplied duration, between the two exchange slots. -/
theorem spiTransfer_delay_mem (s : DriverState) (env : SpiEnv) (c d : Nat) :
    Event.delayMs d ∈ (spiTransfer s env c d).2.2 := by
  cases hs : s.spiFailed <;>
    by_cases hc : c < cRegisterCount <;>
    by_cases h1 : env.result1 = SpiResult.cOk <;>
    by_cases h2 : env.result2 = SpiResult.cOk <;>
    by_cases hp : calculateParity (env.data2 % 4294967296) = cInvalidParity <;>
    simp [spiTransfer, hs, hc, h1, h2, hp, calculateParity_zero, cInvalidResponse]

theorem countDelay_spiTransfer (s : DriverState) (env : SpiEnv) (c d : Nat) :
    countDelayEvents (spiTransfer s env c d).2.2 = 1 := by
  cases hs : s.spiFailed <;>
    by_cases hc : c < cRegisterCount <;>
    by_cases h1 : env.result1 = SpiResult.cOk <;>
    by_cases h2 : env.result2 = SpiResult.cOk <;>
    by_cases hp : calculateParity (env.data2 % 4294967296) = cInvalidParity <;>
    simp [spiTransfer, countDelayEvents, hs, hc, h1, h2, hp, calculateParity_zero,
      cInvalidResponse]

theorem countDelay_read (s : DriverState) (env : SpiEnv) (c : Nat) :
    countDelayEvents (read s env c).2.2 = 1 :=
  countDelay_spiTransfer _ _ _ _

theorem countDelay_write (s : DriverState) (env : SpiEnv) (c v : Nat) :
    countDelayEvents (write s env c v).2.2 = 1 :=
  countDelay_spiTransfer _ _ _ _

/-- A latched fault is sticky across transfers. -/
theorem spiTransfer_failed_mono (s : DriverState) (env : SpiEnv) (c d : Nat)
    (h : s.spiFailed = true) :
    (spiTransfer s env c d).2.1.spiFailed = true := by
  simp [spiTransfer, h]

/-- From an unlatched state, a transfer of a valid register index reports a
non-`cInvalidResponse` result exactly when it did not latch the fault. -/
theorem spiTransfer_result_iff (s : DriverState) (env : SpiEnv) (c d : Nat)
    (hf : s.spiFailed = false) (hc : c < cRegisterCount) :
    ((spiTransfer s env c d).1 != cInvalidResponse)
      = !(spiTransfer s env c d).2.1.spiFailed := by
  by_cases h1 : env.result1 = SpiResult.cOk
  · by_cases h2 : env.result2 = SpiResult.cOk
    · by_cases hp : calculateParity (env.data2 % 4294967296) = cInvalidParity
      · simp [spiTransfer, hf, hc, h1, h2, hp, cInvalidResponse]
      · have hnz : env.data2 % 4294967296 ≠ 0 := by
          intro h0
          rw [h0] at hp
          exact hp (by decide)
        simp [spiTransfer, hf, hc, h1, h2, hp, hnz, cInvalidResponse, bne_iff_ne]
    · simp [spiTransfer, hf, hc, h1, h2]
  · simp [spiTransfer, hf, hc, h1]

/-- How a latched transfer behaves: no exchange, no sink call, result
`cInvalidResponse`, the addressed read-cache slot overwritten with the
placeholder. -/
theorem spiTransfer_latched (s : DriverState) (env : SpiEnv) (c d : Nat)
    (h : s.spiFailed = true) :
    (spiTransfer s env c d).1 = cInvalidResponse
    ∧ (spiTransfer s env c d).2.1
        = { s with readCache := s.readCache.set c cInvalidResponse }
    ∧ (spiTransfer s env c d).2.2
        = [Event.enableSpi true, Event.enableSpi false, Event.delayMs d,
           Event.enableSpi true, Event.enableSpi false] := by
  simp [spiTransfer, h]

/-! ## Concrete hardware environments for witnesses and counterexamples -/

/-- A hardware environment in which both exchanges succeed and the device
returns the word `1` (odd population: passes the parity check). -/
def envOk1 : SpiEnv := { result1 := SpiResult.cOk, result2 := SpiResult.cOk, data2 := 1 }

/-- A hardware environment in which both exchanges succeed and the device
returns the word `7` (odd population: passes the parity check). -/
def envOk7 : SpiEnv := { result1 := SpiResult.cOk, result2 := SpiResult.cOk, data2 := 7 }

/-- A hardware environment in which the first exchange times out. -/
def envTimeout : SpiEnv :=
  { result1 := SpiResult.cTimeout, result2 := SpiResult.cOk, data2 := 1 }

/-- A driver run that reaches a latched state with history: a successful
`readIntoCache(0)` (caching the validated word `7`), then a failed
`read(3)` which latches the fault.  `mReadCache[0]` still holds `7`. -/
def latchedAfterFailure : DriverState :=
  (read (readIntoCache initialState envOk7 0).2.1 envTimeout 3).2.1

/-- C1, counterexample.  The claim says that once the fault latch is true a
transfer call touches no hardware (no chip-select toggling) and changes no
`ReadCache` entry.  In the latched state reached above, `mReadCache[0] = 7`;
the subsequent `read(0)` toggles chip-select (`enableSpiTransfer` events in
the trace) and overwrites `mReadCache[0]` with the placeholder `0`. -/
theorem latched_read_touches_cs_and_cache :
    latchedAfterFailure.spiFailed = true
    ∧ latchedAfterFailure.readCache.getD 0 0 = 7
    ∧ (read latchedAfterFailure envOk7 0).2.1.readCache.getD 0 0 = 0
    ∧ Event.enableSpi true ∈ (read latchedAfterFailure envOk7 0).2.2 := by
  decide

/-- C1, amended.  Once the fault latch is true, every transfer returns
failure without any SPI exchange and without invoking the fatal-error sink;
however chip-select toggling and the inter-phase delay still occur, the
addressed `ReadCache` slot is overwritten with the placeholder
`cInvalidResponse`, and a write still stores the adjusted value into its
`WriteCache` slot (a read leaves `WriteCache` unchanged), until `reset()`. -/
theorem latched_transfer_fails_without_exchange (s : DriverState) (env : SpiEnv)
    (c v : Nat) (h : s.spiFailed = true) :
    ((read s env c).1 = cInvalidResponse
      ∧ (read s env c).2.1.spiFailed = true
      ∧ (read s env c).2.1.readCache = s.readCache.set c cInvalidResponse
      ∧ (read s env c).2.1.writeCache = s.writeCache
      ∧ Event.exchange ∉ (read s env c).2.2
      ∧ (∀ e, Event.fatal e ∉ (read s env c).2.2)
      ∧ Event.enableSpi true ∈ (read s env c).2.2)
    ∧ ((write s env c v).1 = false
      ∧ (write s env c v).2.1.spiFailed = true
      ∧ (write s env c v).2.1.readCache = s.readCache.set c cInvalidResponse
      ∧ (write s env c v).2.1.writeCache = s.writeCache.set c (adjustForWrite c v)
      ∧ Event.exchange ∉ (write s env c v).2.2
      ∧ (∀ e, Event.fatal e ∉ (write s env c v).2.2))
    ∧ (readIntoCache s env c).1 = true := by
  refine ⟨⟨?_, ?_, ?_, ?_, ?_, ?_, ?_⟩, ⟨?_, ?_, ?_, ?_, ?_, ?_⟩, ?_⟩ <;>
    simp [read, write, readIntoCache, spiTransfer, h, cInvalidResponse]

/-- C1, witness for `latched_transfer_fails_without_exchange` at a concrete
latched state. -/
theorem latched_transfer_fails_without_exchange_witness :
    latchedAfterFailure.spiFailed = true
    ∧ ((read latchedAfterFailure envOk1 0).1 = cInvalidResponse
        ∧ (write latchedAfterFailure envOk1 0 5).1 = false) :=
  ⟨by decide,
   ((latched_transfer_fails_without_exchange latchedAfterFailure envOk1 0 5
      (by decide)).1.1),
   ((latched_transfer_fails_without_exchange latchedAfterFailure envOk1 0 5
      (by decide)).2.1.1)⟩

/-- C5, counterexample.  The claim says no transfer ever stores an
unvalidated or failure-placeholder value into `ReadCache`.  Starting from a
state whose `mReadCache[0]` holds the validated word `7`, a `read(0)` whose
first exchange times out latches the fault and overwrites `mReadCache[0]`
with the failure placeholder `cInvalidResponse = 0`. -/
theorem failed_transfer_stores_placeholder :
    (readIntoCache initialState envOk7 0).2.1.readCache.getD 0 0 = 7
    ∧ (readIntoCache initialState envOk7 0).2.1.spiFailed = false
    ∧ (read (readIntoCache initialState envOk7 0).2.1 envTimeout 0).2.1.spiFailed = true
    ∧ (read (readIntoCache initialState envOk7 0).2.1 envTimeout 0).2.1.readCache.getD 0 0
        = cInvalidResponse := by
  decide

/-- C5, amended.  Every `spiTransfer` stores its result into the addressed
`ReadCache` slot; that stored value is either the failure placeholder
`cInvalidResponse = 0` or a word that arrived through a
communication-successful, parity-valid exchange pair. -/
theorem readCache_entry_validated_or_placeholder (s : DriverState) (env : SpiEnv)
    (c d : Nat) :
    (spiTransfer s env c d).2.1.readCache = s.readCache.set c (spiTransfer s env c d).1
    ∧ ((spiTransfer s env c d).1 = cInvalidResponse
        ∨ (s.spiFailed = false ∧ c < cRegisterCount
            ∧ env.result1 = SpiResult.cOk ∧ env.result2 = SpiResult.cOk
            ∧ (spiTransfer s env c d).1 = env.data2 % 2 ^ 32
            ∧ calculateParity ((spiTransfer s env c d).1) ≠ cInvalidParity)) := by
  cases hs : s.spiFailed <;>
    by_cases hc : c < cRegisterCount <;>
    by_cases h1 : env.result1 = SpiResult.cOk <;>
    by_cases h2 : env.result2 = SpiResult.cOk <;>
    by_cases hp : calculateParity (env.data2 % 4294967296) = cInvalidParity <;>
    simp [spiTransfer, hs, hc, h1, h2, hp, calculateParity_zero, cInvalidResponse]

/-- C7.  The fatal-error sink fires exactly at the false-to-true transition
of the fault latch, with kind `cCommunication` when either physical exchange
reported non-`cOk` and kind `cParity` when both exchanges succeeded but the
returned word failed the parity check; a transfer from an already-latched
state keeps the latch and never calls the sink (count 0 by the first
conjunct). -/
theorem fatal_sink_fires_exactly_at_transition (s : DriverState) (env : SpiEnv)
    (c d : Nat) (hc : c < cRegisterCount) :
    countFatalEvents (spiTransfer s env c d).2.2
        = (if s.spiFailed = false ∧ (spiTransfer s env c d).2.1.spiFailed = true
           then 1 else 0)
    ∧ (Event.fatal Except9945.cCommunication ∈ (spiTransfer s env c d).2.2
        ↔ s.spiFailed = false
          ∧ (env.result1 ≠ SpiResult.cOk ∨ env.result2 ≠ SpiResult.cOk))
    ∧ (Event.fatal Except9945.cParity ∈ (spiTransfer s env c d).2.2
        ↔ s.spiFailed = false ∧ env.result1 = SpiResult.cOk ∧ env.result2 = SpiResult.cOk
          ∧ calculateParity (env.data2 % 2 ^ 32) = cInvalidParity)
    ∧ (s.spiFailed = true → (spiTransfer s env c d).2.1.spiFailed = true) := by
  cases hs : s.spiFailed <;>
    by_cases h1 : env.result1 = SpiResult.cOk <;>
    by_cases h2 : env.result2 = SpiResult.cOk <;>
    by_cases hp : calculateParity (env.data2 % 4294967296) = cInvalidParity <;>
    simp [spiTransfer, countFatalEvents, hs, hc, h1, h2, hp]

/-- C7, witness: a timeout on the second exchange of a fresh state raises
`cCommunication` once. -/
theorem fatal_sink_fires_exactly_at_transition_witness :
    (0 : Nat) < cRegisterCount
    ∧ countFatalEvents
        (spiTransfer initialState
          { result1 := SpiResult.cOk, result2 := SpiResult.cTimeout, data2 := 1 } 0 0).2.2
      = (if initialState.spiFailed = false
            ∧ (spiTransfer initialState
                { result1 := SpiResult.cOk, result2 := SpiResult.cTimeout, data2 := 1 }
                0 0).2.1.spiFailed = true
         then 1 else 0) :=
  ⟨by decide,
   (fatal_sink_fires_exactly_at_transition initialState
     { result1 := SpiResult.cOk, result2 := SpiResult.cTimeout, data2 := 1 } 0 0
     (by decide)).1⟩

/-- C3, counterexample.  The claim says every outgoing phase-1 word has a
32-bit XOR-fold of zero and that the value committed on a write has a fold
of zero.  For `write(0, 2)` the committed `WriteCache` value is `2` and the
transmitted phase-1 word is `2` as well — both with XOR-fold one, not
zero. -/
theorem outgoing_word_fold_is_one_at_write_0_2 :
    (write initialState envOk1 0 2).2.1.dataOut = 2
    ∧ (write initialState envOk1 0 2).2.1.writeCache.getD 0 0 = 2
    ∧ xorFold32 2 = true := by
  decide

/-- C3, amended.  The low bit is flipped when needed so that the XOR-fold of
all 32 transmitted bits is one (odd parity), for the phase-1 word of every
write and of every read; the committed `WriteCache` value is the adjusted
value without parity adjustment; and a returned word whose parity indicates
corruption (`calculateParity == cInvalidParity`, i.e. even fold) triggers
the `cParity` fatal error. -/
theorem transmitted_words_have_odd_fold :
    (∀ (s : DriverState) (env : SpiEnv) (c v : Nat),
      xorFold32 ((write s env c v).2.1.dataOut) = true
      ∧ (write s env c v).2.1.writeCache = s.writeCache.set c (adjustForWrite c v))
    ∧ (∀ (s : DriverState) (env : SpiEnv) (c : Nat),
      xorFold32 ((read s env c).2.1.dataOut) = true)
    ∧ (∀ (s : DriverState) (env : SpiEnv) (c d : Nat),
      s.spiFailed = false → c < cRegisterCount →
      env.result1 = SpiResult.cOk → env.result2 = SpiResult.cOk →
      calculateParity (env.data2 % 2 ^ 32) = cInvalidParity →
      Event.fatal Except9945.cParity ∈ (spiTransfer s env c d).2.2) := by
  refine ⟨fun s env c v => ⟨?_, ?_⟩, fun s env c => ?_, fun s env c d hf hc h1 h2 hp => ?_⟩
  · have hfr := spiTransfer_frame { s with
      writeCache := s.writeCache.set c (adjustForWrite c v),
      dataOut := prepareWord (adjustForWrite c v), writeDelay := cNoDelay } env c s.writeDelay
    unfold write
    rw [hfr.2.1]
    exact xorFold32_prepareWord _
  · have hfr := spiTransfer_frame { s with
      writeCache := s.writeCache.set c (adjustForWrite c v),
      dataOut := prepareWord (adjustForWrite c v), writeDelay := cNoDelay } env c s.writeDelay
    unfold write
    exact hfr.1
  · have hfr := spiTransfer_frame
      { s with dataOut := prepareWord ((cFixedPatternValues.getD c 0) ||| cMaskRead) }
      env c cNoDelay
    unfold read
    rw [hfr.2.1]
    exact xorFold32_prepareWord _
  · norm_num at hp
    simp [spiTransfer, hf, hc, h1, h2, hp]

/-- C3, witness for the parity-error part of
`transmitted_words_have_odd_fold`: the device returning the word `0` (even
fold) raises `cParity`. -/
theorem transmitted_words_have_odd_fold_witness :
    initialState.spiFailed = false
    ∧ (0 : Nat) < cRegisterCount
    ∧ calculateParity ((0 : Nat) % 2 ^ 32) = cInvalidParity
    ∧ Event.fatal Except9945.cParity
        ∈ (spiTransfer initialState
            { result1 := SpiResult.cOk, result2 := SpiResult.cOk, data2 := 0 } 0 0).2.2 :=
  ⟨by decide, by decide, by decide,
   (transmitted_words_have_odd_fold).2.2 initialState
     { result1 := SpiResult.cOk, result2 := SpiResult.cOk, data2 := 0 } 0 0
     (by decide) (by decide) (by decide) (by decide) (by decide)⟩

/-- C4, counterexample.  The claim says the adjusted value
`(v & ~(readBit | mask)) | fixedValue` is what is transmitted as the
phase-1 word.  For `write(0, 0)` the adjusted value is `0`, but the
transmitted word (the driver's `mDataOut[0..3]`) is `1`: `prepareDataToSend`
flips the low bit to fix the parity. -/
theorem transmitted_word_differs_from_adjusted :
    adjustForWrite 0 0 = 0
    ∧ (write initialState envOk1 0 0).2.1.dataOut = 1 := by
  decide

/-- C4, amended.  `write(i, v)` stores the fixed-pattern-adjusted value into
`WriteCache[i]` before the transfer is attempted — so `WriteCache[i]` holds
that adjusted value whatever the outcome (the environment `env` is
universally quantified) — and the phase-1 word placed in the transmit buffer
is that adjusted value with the low parity bit applied
(`prepareWord`), not the bare adjusted value. -/
theorem write_commits_adjusted_value (s : DriverState) (env : SpiEnv) (c v : Nat) :
    (write s env c v).2.1.writeCache = s.writeCache.set c (adjustForWrite c v)
    ∧ (write s env c v).2.1.dataOut = prepareWord (adjustForWrite c v) := by
  unfold write
  have hfr := spiTransfer_frame { s with
    writeCache := s.writeCache.set c (adjustForWrite c v),
    dataOut := prepareWord (adjustForWrite c v), writeDelay := cNoDelay } env c s.writeDelay
  exact ⟨hfr.1, hfr.2.1⟩

theorem countDelayEvents_append (a b : List Event) :
    countDelayEvents (a ++ b) = countDelayEvents a + countDelayEvents b :=
  List.countP_append _ _ _

theorem readRange_succ (s : DriverState) (envs : Nat → SpiEnv) (start count : Nat) :
    readRange s envs start (count + 1)
      = (let r := read s (envs start) start
         let s1 := { r.2.1 with readCache := r.2.1.readCache.set start r.1 }
         let rest := readRange s1 envs (start + 1) count
         (rest.1, r.2.2 ++ rest.2)) := rfl

theorem writeRange_succ (s : DriverState) (envs : Nat → SpiEnv) (start count : Nat) :
    writeRange s envs start (count + 1)
      = (let w := write s (envs start) start (s.writeCache.getD start 0)
         if w.1 then
           (let rest := writeRange w.2.1 envs (start + 1) count
            (rest.1, rest.2.1, w.2.2 ++ rest.2.2))
         else (false, w.2.1, w.2.2)) := rfl

/-- The read-all loop performs one transfer (hence one delay call) per
register, for every register, whatever the outcomes: the guard variable
`result` of `readAllIntoCache` is never assigned. -/
theorem countDelay_readRange (envs : Nat → SpiEnv) :
    ∀ (count start : Nat) (s : DriverState),
      countDelayEvents (readRange s envs start count).2 = count
  | 0, _, _ => rfl
  | count + 1, start, s => by
    rw [readRange_succ]
    simp only []
    rw [countDelayEvents_append, countDelay_read,
      countDelay_readRange envs count (start + 1)]
    omega

/-- From an unlatched state, `write` reports success exactly when the
transfer did not latch the fault. -/
theorem write_result_iff (s : DriverState) (env : SpiEnv) (c v : Nat)
    (hf : s.spiFailed = false) (hc : c < cRegisterCount) :
    (write s env c v).1 = !(write s env c v).2.1.spiFailed := by
  unfold write
  exact spiTransfer_result_iff _ env c _ hf hc

/-- From an unlatched state, a write whose first exchange reports non-`cOk`
returns failure. -/
theorem write_fails_of_result1 (s : DriverState) (env : SpiEnv) (c v : Nat)
    (hf : s.spiFailed = false) (hc : c < cRegisterCount)
    (h1 : env.result1 ≠ SpiResult.cOk) :
    (write s env c v).1 = false := by
  simp [write, spiTransfer, hf, hc, h1]

/-- The write-all loop reports success exactly when it ends with the fault
latch still clear. -/
theorem writeRange_result_iff (envs : Nat → SpiEnv) :
    ∀ (count start : Nat) (s : DriverState), s.spiFailed = false →
      start + count ≤ cRegisterCount →
      (writeRange s envs start count).1 = !(writeRange s envs start count).2.1.spiFailed
  | 0, start, s, hf, _ => by simp [writeRange, hf]
  | count + 1, start, s, hf, hb => by
    have hstart : start < cRegisterCount := by
      simp only [cRegisterCount] at hb ⊢; omega
    have hw := write_result_iff s (envs start) start (s.writeCache.getD start 0) hf hstart
    rw [writeRange_succ]
    simp only []
    split
    case isTrue h =>
      have h1 : (write s (envs start) start (s.writeCache.getD start 0)).1 = true := h
      rw [h1] at hw
      have hffalse :
          (write s (envs start) start (s.writeCache.getD start 0)).2.1.spiFailed = false := by
        simpa using hw.symm
      have hb1 : start + 1 + count ≤ cRegisterCount := by
        simp only [cRegisterCount] at hb ⊢; omega
      exact writeRange_result_iff envs count (start + 1) _ hffalse hb1
    case isFalse h =>
      have h1 : (write s (envs start) start (s.writeCache.getD start 0)).1 = false :=
        Bool.eq_false_iff.mpr h
      exact (hw.symm.trans h1).symm

/-- The write-all loop stops at the first failed write, wherever it occurs:
either every write succeeds and the pass performs exactly `count` transfers,
or the pass reports failure and there is a position `k` such that the whole
pass coincides — result, final state and trace — with the pass truncated
right after its (k+1)-th write, the `k`-write prefix of the pass reports
success (writes at relative positions 0..k-1 all succeeded), and exactly
`k + 1` transfers were performed. -/
theorem writeRange_stops (envs : Nat → SpiEnv) :
    ∀ (count start : Nat) (s : DriverState),
      ((writeRange s envs start count).1 = true
        ∧ countDelayEvents (writeRange s envs start count).2.2 = count)
      ∨ ((writeRange s envs start count).1 = false
        ∧ ∃ k, k < count
          ∧ writeRange s envs start count = writeRange s envs start (k + 1)
          ∧ (writeRange s envs start k).1 = true
          ∧ countDelayEvents (writeRange s envs start count).2.2 = k + 1)
  | 0, start, s => Or.inl ⟨rfl, rfl⟩
  | count + 1, start, s => by
    cases hw : (write s (envs start) start (s.writeCache[start]?.getD 0)).1
    · -- this write failed: the pass is its own 1-write truncation
      have e0 : writeRange s envs start (count + 1)
          = (false, (write s (envs start) start (s.writeCache[start]?.getD 0)).2.1,
             (write s (envs start) start (s.writeCache[start]?.getD 0)).2.2) := by
        rw [writeRange_succ]
        simp [hw]
      have e01 : writeRange s envs start 1
          = (false, (write s (envs start) start (s.writeCache[start]?.getD 0)).2.1,
             (write s (envs start) start (s.writeCache[start]?.getD 0)).2.2) := by
        rw [writeRange_succ]
        simp [hw]
      refine Or.inr ⟨by rw [e0], 0, by omega, ?_, rfl, ?_⟩
      · simp only [Nat.zero_add]
        rw [e0, e01]
      · rw [e0]
        exact countDelay_write _ _ _ _
    · -- this write succeeded: recurse on the rest of the pass
      rcases writeRange_stops envs count (start + 1)
          (write s (envs start) start (s.writeCache[start]?.getD 0)).2.1 with
        ⟨hres, hcnt⟩ | ⟨hres, k, hk, heq, hpre, hcnt⟩
      · left
        constructor
        · rw [writeRange_succ]
          simp [hw, hres]
        · rw [writeRange_succ]
          simp [hw, countDelayEvents_append, countDelay_write, hcnt]
          try omega
      · right
        constructor
        · rw [writeRange_succ]
          simp [hw, hres]
        · refine ⟨k + 1, by omega, ?_, ?_, ?_⟩
          · rw [writeRange_succ, writeRange_succ]
            simp [hw, heq]
          · rw [writeRange_succ]
            simp [hw, hpre]
          · rw [writeRange_succ]
            simp [hw, countDelayEvents_append, countDelay_write, hcnt]
            try omega

/-- C10.  `readIntoCache` and `readAllIntoCache` return the fault-latch flag
(`true` = a failure has occurred), the opposite of the convention of
`write`, `writeFromCache` and `writeAllFromCache`, whose `true` means
success (equivalently: the latch is still clear afterwards); the read-all
pass always performs all 14 transfers whatever the outcomes, while the
write-all pass stops at the first failed write: when it fails, the whole
pass equals its truncation right after the first failing write at some
position `k`, the `k`-write prefix succeeded, and exactly `k + 1` of the 14
transfers were performed. -/
theorem return_conventions_and_loop_shapes :
    (∀ (s : DriverState) (env : SpiEnv) (c : Nat),
      (readIntoCache s env c).1 = (readIntoCache s env c).2.1.spiFailed)
    ∧ (∀ (s : DriverState) (envs : Nat → SpiEnv),
      (readAllIntoCache s envs).1 = (readAllIntoCache s envs).2.1.spiFailed
      ∧ countDelayEvents (readAllIntoCache s envs).2.2 = cRegisterCount)
    ∧ (∀ (s : DriverState) (env : SpiEnv) (c v : Nat),
      s.spiFailed = false → c < cRegisterCount →
      (write s env c v).1 = !(write s env c v).2.1.spiFailed)
    ∧ (∀ (s : DriverState) (env : SpiEnv) (c : Nat),
      s.spiFailed = false → c < cRegisterCount →
      (writeFromCache s env c).1 = !(writeFromCache s env c).2.1.spiFailed)
    ∧ (∀ (s : DriverState) (envs : Nat → SpiEnv),
      s.spiFailed = false →
      (writeAllFromCache s envs).1 = !(writeAllFromCache s envs).2.1.spiFailed)
    ∧ (∀ (s : DriverState) (envs : Nat → SpiEnv),
      ((writeAllFromCache s envs).1 = true
        ∧ countDelayEvents (writeAllFromCache s envs).2.2 = cRegisterCount)
      ∨ ((writeAllFromCache s envs).1 = false
        ∧ ∃ k, k < cRegisterCount
          ∧ writeAllFromCache s envs = writeRange s envs 0 (k + 1)
          ∧ (writeRange s envs 0 k).1 = true
          ∧ countDelayEvents (writeAllFromCache s envs).2.2 = k + 1)) :=
  ⟨fun s env c => rfl,
   fun s envs => ⟨rfl, countDelay_readRange envs cRegisterCount 0 s⟩,
   fun s env c v hf hc => write_result_iff s env c v hf hc,
   fun s env c hf hc => write_result_iff s env c (s.writeCache.getD c 0) hf hc,
   fun s envs hf => writeRange_result_iff envs cRegisterCount 0 s hf (by decide),
   fun s envs => writeRange_stops envs cRegisterCount 0 s⟩

/-- A hardware environment whose first five transfers succeed and whose
sixth (register 5) times out: a mid-pass failure for the C10 witness. -/
def cEnvsFailAt5 (cmd : Nat) : SpiEnv :=
  if cmd = 5 then envTimeout else envOk1

/-- C10, witness: concrete instances of the hypothesis-bearing parts, and a
mid-pass failure — the write-back with `cEnvsFailAt5` fails at register 5
and performs exactly 6 of the 14 transfers. -/
theorem return_conventions_and_loop_shapes_witness :
    initialState.spiFailed = false
    ∧ (0 : Nat) < cRegisterCount
    ∧ (write initialState envOk1 0 5).1
        = !(write initialState envOk1 0 5).2.1.spiFailed
    ∧ (writeFromCache initialState envOk1 0).1
        = !(writeFromCache initialState envOk1 0).2.1.spiFailed
    ∧ (writeAllFromCache initialState cEnvsFailAt5).1
        = !(writeAllFromCache initialState cEnvsFailAt5).2.1.spiFailed
    ∧ (writeAllFromCache initialState cEnvsFailAt5).1 = false
    ∧ countDelayEvents (writeAllFromCache initialState cEnvsFailAt5).2.2 = 6
    ∧ (writeRange initialState cEnvsFailAt5 0 5).1 = true :=
  ⟨rfl, by decide,
   (return_conventions_and_loop_shapes).2.2.1 initialState envOk1 0 5 rfl (by decide),
   (return_conventions_and_loop_shapes).2.2.2.1 initialState envOk1 0 rfl (by decide),
   (return_conventions_and_loop_shapes).2.2.2.2.1 initialState cEnvsFailAt5 rfl,
   by decide, by decide, by decide⟩

/-- C9.  `PendingDelay` is one-shot: a write consumes the stored
`mWriteDelay` as its inter-phase delay and leaves the field zero whatever
the outcome; a read uses `cNoDelay` and leaves the field unchanged. -/
theorem pendingDelay_one_shot (s : DriverState) (env : SpiEnv) (c v : Nat) :
    ((write s env c v).2.1.writeDelay = 0
      ∧ Event.delayMs s.writeDelay ∈ (write s env c v).2.2)
    ∧ ((read s env c).2.1.writeDelay = s.writeDelay
      ∧ Event.delayMs cNoDelay ∈ (read s env c).2.2) := by
  constructor
  · constructor
    · unfold write
      have hfr := spiTransfer_frame { s with
        writeCache := s.writeCache.set c (adjustForWrite c v),
        dataOut := prepareWord (adjustForWrite c v), writeDelay := cNoDelay } env c s.writeDelay
      exact hfr.2.2
    · exact spiTransfer_delay_mem _ _ _ _
  · constructor
    · unfold read
      have hfr := spiTransfer_frame { s with
        dataOut := prepareWord ((cFixedPatternValues.getD c 0) ||| cMaskRead) } env c cNoDelay
      exact hfr.2.2
    · exact spiTransfer_delay_mem _ _ _ _

/-! ## reset ordering -/

/-- C6, counterexample.  The claim says `reset()` clears the fault latch
before performing any hardware access.  From a latched state, every event
of the trace up to the latch-clearing point — the reset-line toggling, the
delays, and the chip-select-framed throwaway exchange pair — precedes the
clear, and it contains GPIO toggling and SPI exchanges. -/
theorem hardware_access_precedes_latch_clear :
    DriverState.spiFailed { initialState with spiFailed := true } = true
    ∧ ((reset { initialState with spiFailed := true } (fun _ => envOk1)).2).takeWhile
        (fun e => decide (e ≠ Event.latchCleared)) = resetPrefixEvents
    ∧ Event.enableReset true ∈ resetPrefixEvents
    ∧ Event.exchange ∈ resetPrefixEvents := by
  decide

/-- C6, amended.  `reset()` clears the fault latch after the reset-line
toggling and the throwaway exchange pair, but before the full write-back;
at the clearing point the latch is false — whatever it was before — and
`WriteCache` holds the full power-on register image; the trace is the
reset prefix, the latch clear, the write-back, then `enableAll` with
outputs enabled exactly when the write-back succeeded. -/
theorem reset_clears_latch_before_writeback (s : DriverState) (envs : Nat → SpiEnv) :
    (resetCleared s).spiFailed = false
    ∧ (resetCleared s).writeCache = cInitialRegisterValues
    ∧ (reset s envs).1 = (writeAllFromCache (resetCleared s) envs).2.1
    ∧ (reset s envs).2
        = resetPrefixEvents ++ [Event.latchCleared]
          ++ (writeAllFromCache (resetCleared s) envs).2.2
          ++ [Event.enableAll (!(reset s envs).1.spiFailed)]
    ∧ (writeAllFromCache (resetCleared s) envs).1 = !(reset s envs).1.spiFailed := by
  refine ⟨rfl, ?_, rfl, rfl, ?_⟩
  · exact (by decide :
      (cInitialRegisterValues.set 13 (adjustForWrite 13 (cInitialRegisterValues.getD 13 0)))
        = cInitialRegisterValues)
  · exact writeRange_result_iff envs cRegisterCount 0 (resetCleared s) rfl (by decide)

/-! ## Diagnostics -/

theorem and_bit0_bit1 (w : Nat) (c0 c1 : Bool) :
    ((w &&& ((if c0 then (1 : Nat) else 0) <<< 0)) &&& ((if c1 then (1 : Nat) else 0) <<< 1))
      = 0 := by
  cases c0 <;> cases c1 <;> simp
  rcases Nat.mod_two_eq_zero_or_one w with h | h <;> rw [h] <;> decide

/-- The per-channel loop of `gatherChannels` uses
`willTest &= (ok ? 1u : 0u) << i;`: each iteration keeps at most the single
bit `i`, so after two iterations nothing survives — the eligibility bitmap
is zero for every register snapshot, both pulse ceilings, and both required
driven states. -/
theorem gatherChannels_eq_zero (rc : List Nat) (aTimeLimit : Nat) (aFetNow : Bool) :
    gatherChannels rc aTimeLimit aFetNow = 0 := by
  unfold gatherChannels
  have hr : List.range 8 = [0, 1, 2, 3, 4, 5, 6, 7] := rfl
  rw [hr]
  simp only [List.foldl]
  rw [and_bit0_bit1]
  simp

/-- The hardware environment of the C2 scenario: the refresh pass reads back
command 0 with diagnostics enabled (bit 25), channel 3 in hardware-diagnostic
input mode (bit 19), protection enabled (bit 11 clear) and channel 3's
compare bit on (bit 3); command 3 (channel 3) configured high-side with zero
blanking time; every other register reads back `1` (so no bridge is in
combined mode).  All words have odd population, passing the parity check. -/
def cScenarioEnvs (cmd : Nat) : SpiEnv :=
  if cmd = 0 then { result1 := SpiResult.cOk, result2 := SpiResult.cOk, data2 := 0x02080008 }
  else if cmd = 3 then { result1 := SpiResult.cOk, result2 := SpiResult.cOk, data2 := 4 }
  else { result1 := SpiResult.cOk, result2 := SpiResult.cOk, data2 := 1 }

/-- The read cache after the C2 scenario's full refresh. -/
def cScenarioReadCache : List Nat :=
  (readAllIntoCache initialState cScenarioEnvs).2.1.readCache

/-- C2.  `gatherChannels` returns the zero bitmap on every input, and in
particular in the scenario where channel 3 satisfies every eligibility
criterion of the specification: bridge 1 not combined, diagnostics enabled,
channel 3 in hardware-diagnostic input mode, protection not disabled,
blanking time below the 142 µs off-pulse ceiling, and channel 3 observed
driven on.  `perform(cOffPulse)` therefore issues no trigger write (no
transfer with the 1 ms settling delay appears in the trace — note the
source waits 1 ms, `cWaitForTest[cOffPulse]`, not the 2 ms the claim
states) and marks every channel ineligible in the snapshot. -/
theorem offPulse_trigger_never_fires :
    (∀ (rc : List Nat) (aTimeLimit : Nat) (aFetNow : Bool),
      gatherChannels rc aTimeLimit aFetNow = 0)
    ∧ (getBridgeConfig cScenarioReadCache Bridge.c1 = false
      ∧ ((cScenarioReadCache.getD 0 0) &&& cMask0enableDiagnostics ≠ 0)
      ∧ (((cScenarioReadCache.getD 0 0)
            >>> (getRightmost1position cMask0spiInputSelect81 + 2)) &&& 1 = 1)
      ∧ (((cScenarioReadCache.getD 0 0)
            >>> (getRightmost1position cMask0protectionDisable81 + 2)) &&& 1 = 0)
      ∧ getOcBlankTime cScenarioReadCache 3 < cChannelOcBlankTime_c142us
      ∧ getSpiOnOut cScenarioReadCache 3 = true
      ∧ gatherChannels cScenarioReadCache cChannelOcBlankTime_c142us true = 0
      ∧ (performOffPulse initialState cScenarioEnvs envOk1).1.channelsDiagnosed
          = List.replicate 8 false
      ∧ Event.delayMs (cWaitForTest.getD 2 0)
          ∉ (performOffPulse initialState cScenarioEnvs envOk1).2.2) :=
  ⟨gatherChannels_eq_zero, by decide⟩

/-- C8.  A per-channel diagnostics query against a snapshot returns "not
applicable" (`none`) for every channel outside 1..8, for every channel whose
eligibility bit is clear, and for every pass whose mode was not `cAuto`,
`cOffPulse` or `cOnPulse`.  In the embedding the query is a pure function of
the snapshot, so it performs no device access. -/
theorem ineligible_channel_not_applicable (d : DiagnosticsResult) (aChannel : Nat)
    (h : ¬(0 < aChannel ∧ aChannel ≤ cChannelCount)
        ∨ d.channelsDiagnosed.getD (aChannel - 1) false = false
        ∨ (d.testPerformed ≠ DiagnosticsTest.cAuto
            ∧ d.testPerformed ≠ DiagnosticsTest.cOffPulse
            ∧ d.testPerformed ≠ DiagnosticsTest.cOnPulse)) :
    d.getChannelDiagnostics aChannel = none := by
  unfold DiagnosticsResult.getChannelDiagnostics
  rw [if_neg]
  rintro ⟨h1, h2, h3, h4⟩
  rcases h with hh | hh | hh
  · exact hh ⟨h1, h2⟩
  · rw [hh] at h3
    cases h3
  · rcases h4 with h4 | h4 | h4
    · exact hh.1 h4
    · exact hh.2.1 h4
    · exact hh.2.2 h4

/-- The snapshot produced by the C2 scenario's off-pulse pass: every channel
ineligible. -/
def cSnapshotAllIneligible : DiagnosticsResult :=
  (performOffPulse initialState cScenarioEnvs envOk1).1

/-- C8, witness: the off-pulse snapshot above, queried for channel 3 (bit
clear) and for the out-of-range channel 9, answers `none`. -/
theorem ineligible_channel_not_applicable_witness :
    cSnapshotAllIneligible.channelsDiagnosed.getD 2 false = false
    ∧ cSnapshotAllIneligible.getChannelDiagnostics 3 = none
    ∧ cSnapshotAllIneligible.getChannelDiagnostics 9 = none :=
  ⟨by decide,
   ineligible_channel_not_applicable cSnapshotAllIneligible 3 (Or.inr (Or.inl (by decide))),
   ineligible_channel_not_applicable cSnapshotAllIneligible 9 (Or.inl (by decide))⟩

end L9945
